import Mathlib

/-!
# QPSS middleware — shallow embedding and claim verification

This file embeds the data model and the operations of the QPSS middleware
(`qpss_middleware.py` together with the modules under `src/`) as executable
Lean definitions, and proves or refutes the frozen claims about them.

Python floats that carry weights, dimensions and monetary amounts are
modelled as rationals (`Rat`); the claims under scrutiny concern selection
and presence/absence logic, not floating-point rounding.  Python strings
are modelled as `String`, dicts used purely as keyed stores as association
lists or update functions, and exceptions as explicit outcome constructors.
-/

namespace QPSS

/-! ## Data model — `src/xml_parser.py` -/

/-- One package from a DetailIn `InQueueDetail` element
(`PackageDetail` in `src/xml_parser.py`). -/
structure PackageDetail where
  shipment_id : String := ""
  cod_amount : Rat := 0
  comment : String := ""
  declared_value : Rat := 0
  height : Rat := 0
  length : Rat := 0
  package_id : String := ""
  package_no : Int := 1
  units : String := "LB"
  weight : Rat := 0
  width : Rat := 0
deriving DecidableEq

/-- Parsed HeaderIn file (`ShipmentHeader` in `src/xml_parser.py`).
Only fields read by the pipelines are carried; all default to the Python
dataclass defaults. -/
structure ShipmentHeader where
  shipment_id : String := ""
  carrier_code : String := ""
  carrier_service : String := ""
  coll_type : String := ""
  is_cod : String := "0"
  is_residential : String := "0"
  order_no : String := ""
  order_date : String := ""
  po_number : String := ""
  ship_addr1 : String := ""
  ship_addr2 : String := ""
  ship_addr3 : String := ""
  ship_city : String := ""
  ship_country : String := ""
  ship_date : String := ""
  ship_email : String := ""
  ship_name : String := ""
  ship_state : String := ""
  ship_via_code : String := ""
  ship_zip : String := ""
  void : String := "N"
  customer_code : String := ""
  optional_text_001 : String := ""
  optional_text_009 : String := ""
  optional_text_010 : String := ""
  rate_only : String := "N"
deriving DecidableEq

/-- Parsed DetailIn file (`ShipmentDetail` in `src/xml_parser.py`). -/
structure ShipmentDetail where
  packages : List PackageDetail := []
deriving DecidableEq

def ShipmentDetail.package_count (d : ShipmentDetail) : Nat :=
  d.packages.length

/-- `ShipmentDetail.package_count_label` property. -/
def ShipmentDetail.package_count_label (d : ShipmentDetail) : String :=
  if d.package_count ≤ 1 then "Single Package" else "Multi Package"

/-! ## Order translator — `src/order_mapper.py` -/

/-- A Sage 300 line item (`OrderItem` in `src/sage_client.py`). -/
structure OrderItem where
  line_number : Int := 0
  item_number : String := ""
  description : String := ""
  qty_ordered : Rat := 0
  qty_shipped : Rat := 0
  unit_price : Rat := 0
deriving DecidableEq

/-- `build_order_number` in `src/order_mapper.py`: `customercode_ShipmentID`. -/
def build_order_number (h : ShipmentHeader) : String :=
  h.customer_code ++ "_" ++ h.shipment_id

/-- `_format_datetime` in `src/order_mapper.py`.  The Python code returns
the empty string when the input is empty or not exactly 8 characters long,
and otherwise slices the string into `YYYY-MM-DDT00:00:00` shape without
any further validation (the surrounding `try/except` can never fire:
slicing a length-8 string raises nothing). -/
def formatDatetime (date_str : String) : String :=
  if date_str.length ≠ 8 then ""
  else
    date_str.take 4 ++ "-" ++ (date_str.drop 4).take 2 ++ "-"
      ++ (date_str.drop 6).take 2 ++ "T00:00:00"

/-- The `shipTo`/`billTo` object built by `_build_ship_to`. -/
structure SSAddress where
  name : String
  street1 : String
  city : String
  state : String
  postalCode : String
  country : String
  street2 : Option String
  street3 : Option String
  phone : Option String
  email : Option String
  residential : Bool
deriving DecidableEq

/-- `_build_ship_to` in `src/order_mapper.py`. -/
def buildShipTo (h : ShipmentHeader) : SSAddress :=
  { name := h.ship_name
    street1 := h.ship_addr1
    city := h.ship_city
    state := h.ship_state
    postalCode := h.ship_zip
    country := h.ship_country
    street2 := if h.ship_addr2 ≠ "" then some h.ship_addr2 else none
    street3 := if h.ship_addr3 ≠ "" then some h.ship_addr3 else none
    phone := if h.optional_text_001 ≠ "" then some h.optional_text_001 else none
    email := if h.ship_email ≠ "" then some h.ship_email else none
    residential := h.is_residential = "1" }

/-- The `advancedOptions` object built by `_build_advanced_options`. -/
structure SSAdvancedOptions where
  source : String
  customField1 : String
  customField2 : String
  customField3 : String
  storeId : Option Int
deriving DecidableEq

/-- `_build_advanced_options` in `src/order_mapper.py`. -/
def buildAdvancedOptions (h : ShipmentHeader) (d : ShipmentDetail)
    (store_id : Option Int) : SSAdvancedOptions :=
  { source := h.customer_code
    customField1 := h.po_number
    customField2 := h.shipment_id
    customField3 := d.package_count_label
    storeId := store_id }

/-- The `weight` sub-object of a ShipStation order. -/
structure SSWeight where
  value : Rat
  units : String
deriving DecidableEq

/-- The `dimensions` sub-object of a ShipStation order. -/
structure SSDimensions where
  length : Rat
  width : Rat
  height : Rat
  units : String
deriving DecidableEq

/-- The ShipStation V1 order dict produced by `map_to_shipstation`.
Optional keys of the Python dict are `Option` fields.  The output-only
`internalNotes` and `items` keys (pure string/line-item rendering, not
referenced by any claim) are not carried. -/
structure SSOrder where
  orderNumber : String
  orderKey : String
  orderStatus : String
  shipTo : SSAddress
  billTo : SSAddress
  packageCode : String
  requestedShippingService : String
  advancedOptions : SSAdvancedOptions
  orderDate : Option String
  shipDate : Option String
  weight : Option SSWeight
  dimensions : Option SSDimensions
deriving DecidableEq

/-- Volume key used by the `max(..., key=...)` call in `map_to_shipstation`. -/
def PackageDetail.volume (p : PackageDetail) : Rat :=
  p.length * p.width * p.height

/-- Python's `max(packages, key=volume)`: the first package whose volume is
maximal (replacement happens only on a strictly greater key). -/
def largestPackage (p : PackageDetail) (ps : List PackageDetail) : PackageDetail :=
  ps.foldl (fun best q => if best.volume < q.volume then q else best) p

/-- `map_to_shipstation` in `src/order_mapper.py`. -/
def map_to_shipstation (h : ShipmentHeader) (d : ShipmentDetail)
    (store_id : Option Int) (items : List OrderItem) : SSOrder :=
  let order_number := build_order_number h
  let order_date := formatDatetime h.order_date
  let ship_date := formatDatetime h.ship_date
  let weightDims : Option SSWeight × Option SSDimensions :=
    match d.packages with
    | [] => (none, none)
    | p :: ps =>
      let total_weight := (d.packages.map (·.weight)).sum
      let w := if 0 < total_weight
        then some { value := total_weight, units := "pounds" }
        else none
      let largest := largestPackage p ps
      let dims := if 0 < largest.length ∧ 0 < largest.width ∧ 0 < largest.height
        then some { length := largest.length, width := largest.width,
                    height := largest.height, units := "inches" }
        else none
      (w, dims)
  let _ := items
  { orderNumber := order_number
    orderKey := order_number
    orderStatus := "awaiting_shipment"
    shipTo := buildShipTo h
    billTo := buildShipTo h
    packageCode := "package"
    requestedShippingService := h.ship_via_code
    advancedOptions := buildAdvancedOptions h d store_id
    orderDate := if order_date ≠ "" then some order_date else none
    shipDate := if ship_date ≠ "" then some ship_date else none
    weight := weightDims.fst
    dimensions := weightDims.snd }

/-! ### Lemmas about the translator -/

lemma formatDatetime_ne_empty (s : String) (hs : s.length = 8) :
    formatDatetime s ≠ "" := by
  unfold formatDatetime
  rw [if_neg (by omega)]
  intro hc
  have h0 := congrArg String.length hc
  rw [String.length_append, String.length_append, String.length_append,
    String.length_append] at h0
  have h1 : String.length "-" = 1 := rfl
  have h9 : String.length "T00:00:00" = 9 := rfl
  have he : String.length "" = 0 := rfl
  omega

lemma formatDatetime_eq_empty_iff (s : String) :
    formatDatetime s = "" ↔ s.length ≠ 8 := by
  constructor
  · intro h hl
    exact formatDatetime_ne_empty s hl h
  · intro h
    unfold formatDatetime
    exact if_pos h

lemma largestPackage_cons (p q : PackageDetail) (ps : List PackageDetail) :
    largestPackage p (q :: ps)
      = largestPackage (if p.volume < q.volume then q else p) ps := rfl

lemma largestPackage_mem (p : PackageDetail) (ps : List PackageDetail) :
    largestPackage p ps ∈ p :: ps := by
  induction ps generalizing p with
  | nil => simp [largestPackage]
  | cons b bs ih =>
    rw [largestPackage_cons]
    rcases List.mem_cons.mp (ih (if p.volume < b.volume then b else p)) with h1 | h1
    · rw [h1]
      by_cases hc : p.volume < b.volume
      · rw [if_pos hc]
        exact List.mem_cons_of_mem _ (List.mem_cons_self _ _)
      · rw [if_neg hc]
        exact List.mem_cons_self _ _
    · exact List.mem_cons_of_mem _ (List.mem_cons_of_mem _ h1)

lemma largestPackage_is_max (p : PackageDetail) (ps : List PackageDetail) :
    ∀ q ∈ p :: ps, q.volume ≤ (largestPackage p ps).volume := by
  induction ps generalizing p with
  | nil =>
    intro q hq
    rw [List.mem_singleton] at hq
    subst hq
    exact le_refl _
  | cons b bs ih =>
    intro r hr
    rw [largestPackage_cons]
    have hhead : (if p.volume < b.volume then b else p).volume
        ≤ (largestPackage (if p.volume < b.volume then b else p) bs).volume :=
      ih _ _ (List.mem_cons_self _ _)
    have hp2 : p.volume ≤ (if p.volume < b.volume then b else p).volume := by
      by_cases hc : p.volume < b.volume
      · rw [if_pos hc]
        exact le_of_lt hc
      · rw [if_neg hc]
    have hb2 : b.volume ≤ (if p.volume < b.volume then b else p).volume := by
      by_cases hc : p.volume < b.volume
      · rw [if_pos hc]
      · rw [if_neg hc]
        exact le_of_not_lt hc
    rcases List.mem_cons.mp hr with h1 | h1
    · subst h1
      exact le_trans hp2 hhead
    rcases List.mem_cons.mp h1 with h2 | h2
    · subst h2
      exact le_trans hb2 hhead
    · exact ih _ _ (List.mem_cons_of_mem _ h2)

/-! ### Claims C6 and C7 -/

/-- C6 (amended): for a ShipmentRecord with a non-empty package list the
translator sets the order weight to the sum of all package weights **when
that sum is positive** and omits the weight field otherwise; dimensions are
taken from the first package of maximal volume (Python `max` keeps the first
maximum), which is a member of the package list and dominates every package
in volume, and the dimensions field is omitted whenever any of that
package's three dimensions is not positive. -/
theorem translator_weight_dims (h : ShipmentHeader) (d : ShipmentDetail)
    (si : Option Int) (items : List OrderItem) (p : PackageDetail)
    (ps : List PackageDetail) (hp : d.packages = p :: ps) :
    ((map_to_shipstation h d si items).weight =
      if 0 < ((p :: ps).map (·.weight)).sum
      then some ⟨((p :: ps).map (·.weight)).sum, "pounds"⟩ else none)
    ∧ ((map_to_shipstation h d si items).dimensions =
      if 0 < (largestPackage p ps).length ∧ 0 < (largestPackage p ps).width
          ∧ 0 < (largestPackage p ps).height
      then some ⟨(largestPackage p ps).length, (largestPackage p ps).width,
                 (largestPackage p ps).height, "inches"⟩
      else none)
    ∧ largestPackage p ps ∈ p :: ps
    ∧ (∀ q ∈ p :: ps, q.volume ≤ (largestPackage p ps).volume) := by
  obtain ⟨pkgs⟩ := d
  simp only at hp
  subst hp
  refine ⟨rfl, rfl, largestPackage_mem p ps, largestPackage_is_max p ps⟩

/-- Smaller of two sample packages used to exercise the translator. -/
def pkgSmall : PackageDetail :=
  { weight := 1, length := 1, width := 1, height := 1 }

/-- Larger-volume sample package. -/
def pkgBig : PackageDetail :=
  { weight := 2, length := 2, width := 3, height := 4 }

/-- Two-package sample detail (`pkgBig` has the larger volume). -/
def detailTwoPkgs : ShipmentDetail := { packages := [pkgSmall, pkgBig] }

/-- Witness for C6: on the two-package sample the hypothesis of
`translator_weight_dims` holds, the weight is the positive sum `3`, and the
dimensions come from the larger-volume second package. -/
theorem translator_weight_dims_witness :
    detailTwoPkgs.packages = pkgSmall :: [pkgBig]
    ∧ (map_to_shipstation {} detailTwoPkgs none []).weight
        = some { value := 3, units := "pounds" }
    ∧ (map_to_shipstation {} detailTwoPkgs none []).dimensions
        = some { length := 2, width := 3, height := 4, units := "inches" } := by
  have h := translator_weight_dims {} detailTwoPkgs none [] pkgSmall [pkgBig] rfl
  refine ⟨rfl, ?_, ?_⟩
  · rw [h.1]
    norm_num [pkgSmall, pkgBig]
  · rw [h.2.1]
    norm_num [largestPackage, PackageDetail.volume, pkgSmall, pkgBig]

/-- Sample package with zero weight but positive dimensions. -/
def pkgZeroW : PackageDetail :=
  { weight := 0, length := 2, width := 3, height := 4 }

/-- C6 counterexample: a single package whose weight is `0` — the claim says
the order's weight is set to the sum of the package weights, but the code
omits the weight field entirely when the sum is not positive. -/
theorem translator_zero_weight_omitted :
    (map_to_shipstation {} { packages := [pkgZeroW] } none []).weight = none
    ∧ ((({ packages := [pkgZeroW] }
          : ShipmentDetail).packages.map (·.weight)).sum = 0) := by
  constructor
  · norm_num [map_to_shipstation, pkgZeroW]
  · norm_num [pkgZeroW]

/-- C7 (amended): an 8-character header date string — digits or not — is
sliced into `YYYY-MM-DDT00:00:00` and included in the order; any other
length (including the empty string) leads to the date field being omitted;
the current time is never substituted. -/
theorem translator_date_omission (h : ShipmentHeader) (d : ShipmentDetail)
    (si : Option Int) (items : List OrderItem) :
    ((map_to_shipstation h d si items).orderDate
      = if h.order_date.length = 8 then some (formatDatetime h.order_date) else none)
    ∧ ((map_to_shipstation h d si items).shipDate
      = if h.ship_date.length = 8 then some (formatDatetime h.ship_date) else none) := by
  constructor
  · show (if formatDatetime h.order_date ≠ "" then some (formatDatetime h.order_date)
        else none) = _
    by_cases hl : h.order_date.length = 8
    · rw [if_pos hl, if_pos (formatDatetime_ne_empty _ hl)]
    · rw [if_neg hl, if_neg (not_not.mpr ((formatDatetime_eq_empty_iff _).mpr hl))]
  · show (if formatDatetime h.ship_date ≠ "" then some (formatDatetime h.ship_date)
        else none) = _
    by_cases hl : h.ship_date.length = 8
    · rw [if_pos hl, if_pos (formatDatetime_ne_empty _ hl)]
    · rw [if_neg hl, if_neg (not_not.mpr ((formatDatetime_eq_empty_iff _).mpr hl))]

/-- C7 counterexample: the 8-character string `"ABCDEFGH"` is not a valid
`YYYYMMDD` date, yet the translated order carries
`orderDate = "ABCD-EF-GHT00:00:00"` instead of omitting the field. -/
theorem translator_malformed_date_included :
    (map_to_shipstation { order_date := "ABCDEFGH" } { packages := [] }
        none []).orderDate = some "ABCD-EF-GHT00:00:00"
    ∧ (map_to_shipstation { order_date := "ABCDEFGH" } { packages := [] }
        none []).orderDate ≠ none := by
  constructor
  · decide
  · decide

/-! ## Flow 1 per-unit processing — `run_flow1` in `qpss_middleware.py`

The per-unit body of the Flow 1 loop (lines 367–485) is embedded as a pure
step function.  Effects on the outside world (gateway calls, the pending
ledger write, the file relocation) are recorded in the returned
`UnitEffects`; the behaviour of the Sage 300 lookup and of the ShipStation
create/update call are inputs (`Flow1Env`), standing for what the external
services would do for this unit. -/

/-- Outcome of `SageClient.get_order_items` for one order number: a result
list, or one of the two exception classes (`SageConnectionError`,
`SageQueryError` in `src/sage_client.py`). -/
inductive SageResult where
  | items (l : List OrderItem)
  | connError (e : String)
  | queryError (e : String)
deriving DecidableEq

/-- Outcome of `ShipStationClient.create_or_update_order` for this unit. -/
inductive CreateResult where
  | ok
  | permFail (msg : String)
  | transientFail (msg : String)
deriving DecidableEq

/-- Destination folder of a relocated work unit. -/
inductive Folder where
  | processed
  | error
deriving DecidableEq

/-- How the unit is accounted in the run summary, mirroring the counters
and the `held_orders` list of `run_flow1`. -/
inductive UnitResult where
  | processedOk
  | skipped
  | heldForDecision (reason : String)
  | permError (msg : String)
  | transientError (msg : String)
deriving DecidableEq

/-- Observable effects of processing one work unit. -/
structure UnitEffects where
  result : UnitResult
  /-- whether any remote gateway call (`find_order_by_number` /
  `create_or_update_order`) was made for this unit -/
  remoteCalled : Bool
  /-- whether a PendingEntry (pending JSON) was written for this unit -/
  pendingWritten : Bool
  /-- where the unit's files were relocated (`none` = left in place) -/
  movedTo : Option Folder
deriving DecidableEq

/-- External behaviour visible to one unit during the Flow 1 loop. -/
structure Flow1Env where
  /-- `sage` is non-`None` at the loop: the [sage300] section was configured
  and the startup connection test passed (or was not aborted) -/
  sageConfigured : Bool
  /-- what `sage.get_order_items(header.order_no)` would do -/
  sageResult : SageResult
  /-- what `client.create_or_update_order(...)` would do -/
  createResult : CreateResult
  dry : Bool
  storeId : Option Int
deriving DecidableEq

/-- The item-lookup block of `run_flow1` (lines 406–423): returns the
`items` list and the `sage_problem` message exactly as the Python code
computes them.  A raised `SageConnectionError`/`SageQueryError` is caught
and leaves `items` empty. -/
def enrichmentLookup (env : Flow1Env) (h : ShipmentHeader) :
    List OrderItem × Option String :=
  if env.sageConfigured ∧ h.order_no ≠ "" then
    match env.sageResult with
    | .items l =>
      (l, if l.isEmpty
          then some ("Order " ++ h.order_no ++ " not found in Sage 300")
          else none)
    | .connError e => ([], some ("Query error: " ++ e))
    | .queryError e => ([], some ("Query error: " ++ e))
  else ([], none)

/-- Python's `str.upper()` restricted to what the flags contain (ASCII);
defined char-wise so that it evaluates inside the kernel. -/
def pyUpper (s : String) : String := ⟨s.data.map Char.toUpper⟩

/-- The ShipmentID-consistency validation of `run_flow1` (lines 377–380):
only the **first** package of the detail is compared against the header. -/
def firstPackageMismatch (h : ShipmentHeader) (d : ShipmentDetail) : Bool :=
  match d.packages with
  | [] => false
  | p :: _ => p.shipment_id ≠ h.shipment_id

/-- Text of the `ValueError` raised on a ShipmentID mismatch. -/
def mismatchMsg (h : ShipmentHeader) (d : ShipmentDetail) : String :=
  "ShipmentID mismatch: header=" ++ h.shipment_id ++ ", detail="
    ++ (match d.packages with | [] => "" | p :: _ => p.shipment_id)

/-- The body of `run_flow1` after the two parse calls succeed
(validation → void/RateOnly skip → enrichment → hold-or-submit),
lines 377–485 of `qpss_middleware.py`. -/
def runFlow1Unit (env : Flow1Env) (h : ShipmentHeader) (d : ShipmentDetail) :
    UnitEffects :=
  if firstPackageMismatch h d then
    -- ValueError caught by `except (ShipStationError, ValueError)`
    { result := .permError (mismatchMsg h d), remoteCalled := false,
      pendingWritten := false,
      movedTo := if env.dry then none else some .error }
  else if pyUpper h.void = "Y" then
    { result := .skipped, remoteCalled := false, pendingWritten := false,
      movedTo := if env.dry then none else some .processed }
  else if pyUpper h.rate_only = "Y" then
    { result := .skipped, remoteCalled := false, pendingWritten := false,
      movedTo := if env.dry then none else some .processed }
  else
    let lookedUp := enrichmentLookup env h
    if env.sageConfigured ∧ h.order_no ≠ "" ∧ lookedUp.fst.isEmpty then
      { result := .heldForDecision (lookedUp.snd.getD "No items returned"),
        remoteCalled := false, pendingWritten := false, movedTo := none }
    else
      let _order := map_to_shipstation h d env.storeId lookedUp.fst
      if env.dry then
        { result := .processedOk, remoteCalled := false,
          pendingWritten := false, movedTo := none }
      else
        match env.createResult with
        | .ok =>
          { result := .processedOk, remoteCalled := true,
            pendingWritten := true, movedTo := some .processed }
        | .permFail m =>
          { result := .permError m, remoteCalled := true,
            pendingWritten := false, movedTo := some .error }
        | .transientFail m =>
          { result := .transientError m, remoteCalled := true,
            pendingWritten := false, movedTo := none }

/-! ### Sample inputs for the Flow 1 claims -/

/-- A plain valid header (matches the repo's own test generator defaults). -/
def hdrBase : ShipmentHeader :=
  { shipment_id := "TEST00001", customer_code := "HO1002",
    order_no := "ORD0469657", ship_country := "US" }

/-- A package consistent with `hdrBase`. -/
def pkgOk : PackageDetail :=
  { shipment_id := "TEST00001", weight := 1, length := 1, width := 1, height := 1 }

/-- Single consistent package detail. -/
def detailOk : ShipmentDetail := { packages := [pkgOk] }

/-- Environment with no Sage configured, a successful create, a real run. -/
def envPlain : Flow1Env :=
  { sageConfigured := false, sageResult := .items [], createResult := .ok,
    dry := false, storeId := none }

/-! ### Claim C3 — ShipmentID consistency validation -/

/-- C3 (amended): the consistency check compares **only the first** package
of the detail against the header: it fires exactly when the detail is
non-empty and its first package's embedded identifier differs from the
header's (an empty embedded identifier counts as a difference whenever the
header's identifier is non-empty); when it fires, the unit becomes a
permanent failure relocated to the error area on a real run. -/
theorem flow1_mismatch_first_package_only (h : ShipmentHeader)
    (d : ShipmentDetail) :
    (firstPackageMismatch h d = true
      ↔ ∃ p l, d.packages = p :: l ∧ p.shipment_id ≠ h.shipment_id)
    ∧ (∀ env : Flow1Env, firstPackageMismatch h d = true →
        runFlow1Unit env h d =
          { result := .permError (mismatchMsg h d), remoteCalled := false,
            pendingWritten := false,
            movedTo := if env.dry then none else some Folder.error }) := by
  constructor
  · cases hp : d.packages with
    | nil =>
      simp [firstPackageMismatch, hp]
    | cons p l =>
      simp only [firstPackageMismatch, hp, decide_eq_true_eq]
      constructor
      · intro hne
        exact ⟨p, l, rfl, hne⟩
      · rintro ⟨q, m, hqm, hne⟩
        injection hqm with h1 h2
        subst h1
        exact hne
  · intro env hm
    unfold runFlow1Unit
    rw [if_pos hm]

/-- Witness for C3's positive part: a detail whose first package carries an
**empty** identifier is rejected as a mismatch against `hdrBase`. -/
theorem flow1_mismatch_first_package_only_witness :
    firstPackageMismatch hdrBase { packages := [{ shipment_id := "" }] } = true
    ∧ runFlow1Unit envPlain hdrBase { packages := [{ shipment_id := "" }] } =
        { result := .permError
            (mismatchMsg hdrBase { packages := [{ shipment_id := "" }] }),
          remoteCalled := false, pendingWritten := false,
          movedTo := some Folder.error } :=
  ⟨by decide,
   (flow1_mismatch_first_package_only hdrBase
      { packages := [{ shipment_id := "" }] }).2 envPlain (by decide)⟩

/-- C3 counterexample: a second package with a present-and-different
embedded identifier does **not** fail the unit (only the first package is
checked), so the claim's "for every PackageRecord (not just the first)" is
false on the code. -/
theorem flow1_second_package_mismatch_unchecked :
    firstPackageMismatch hdrBase
      { packages := [pkgOk, { shipment_id := "SHIP9999" }] } = false
    ∧ ({ packages := [pkgOk, { shipment_id := "SHIP9999" }] }
        : ShipmentDetail).packages.get? 1
        = some { shipment_id := "SHIP9999" }
    ∧ ("SHIP9999" : String) ≠ hdrBase.shipment_id
    ∧ runFlow1Unit envPlain hdrBase
        { packages := [pkgOk, { shipment_id := "SHIP9999" }] } =
      { result := .processedOk, remoteCalled := true, pendingWritten := true,
        movedTo := some Folder.processed } := by
  refine ⟨by decide, by decide, by decide, by decide⟩

/-! ### Claim C2 — enrichment outcomes -/

/-- C2 (amended): with Sage configured and an order number present, only
**two** outcomes leave per-unit processing untouched vs. deferred: lines
found (the unit proceeds immediately) and no lines (the unit is held for
the batch decision) — where "no lines" covers both a legitimately empty
result **and** a lookup that raises a connection or query error.  A raised
error therefore holds the unit rather than letting it proceed. -/
theorem flow1_enrichment_hold_characterization (env : Flow1Env)
    (h : ShipmentHeader) (d : ShipmentDetail)
    (hval : firstPackageMismatch h d = false)
    (hv : pyUpper h.void ≠ "Y") (hr : pyUpper h.rate_only ≠ "Y") :
    ((∃ reason, (runFlow1Unit env h d).result = .heldForDecision reason)
      ↔ (env.sageConfigured = true ∧ h.order_no ≠ ""
          ∧ (enrichmentLookup env h).fst = []))
    ∧ (∀ e, env.sageResult = .connError e → env.sageConfigured = true →
        h.order_no ≠ "" →
        (runFlow1Unit env h d).result
          = .heldForDecision ("Query error: " ++ e))
    ∧ (∀ e, env.sageResult = .queryError e → env.sageConfigured = true →
        h.order_no ≠ "" →
        (runFlow1Unit env h d).result
          = .heldForDecision ("Query error: " ++ e))
    ∧ (∀ l, env.sageResult = .items l → l ≠ [] →
        ∀ reason, (runFlow1Unit env h d).result ≠ .heldForDecision reason) := by
  obtain ⟨sc, sr, cr, dryb, si⟩ := env
  unfold runFlow1Unit
  rw [if_neg (by simp [hval]), if_neg (by simp [hv]), if_neg (by simp [hr])]
  refine ⟨?_, ?_, ?_, ?_⟩
  · by_cases hc : sc = true ∧ h.order_no ≠ ""
        ∧ (enrichmentLookup ⟨sc, sr, cr, dryb, si⟩ h).fst.isEmpty
    · rw [if_pos (by simpa using hc)]
      simp only [List.isEmpty_iff] at hc
      simpa using hc
    · rw [if_neg (by simpa using hc)]
      simp only [List.isEmpty_iff] at hc
      cases dryb <;> cases cr <;> simpa using hc
  · intro e hsr hsc hno
    subst hsr
    subst hsc
    rw [if_pos (by simp [enrichmentLookup, hno])]
    simp [enrichmentLookup, hno]
  · intro e hsr hsc hno
    subst hsr
    subst hsc
    rw [if_pos (by simp [enrichmentLookup, hno])]
    simp [enrichmentLookup, hno]
  · intro l hsr hl reason
    subst hsr
    have hfst : (enrichmentLookup ⟨sc, .items l, cr, dryb, si⟩ h).fst = l
        ∨ (enrichmentLookup ⟨sc, .items l, cr, dryb, si⟩ h).fst = [] := by
      unfold enrichmentLookup
      split
      · exact Or.inl rfl
      · exact Or.inr rfl
    by_cases hc : sc = true ∧ h.order_no ≠ ""
        ∧ (enrichmentLookup ⟨sc, .items l, cr, dryb, si⟩ h).fst.isEmpty
    · exfalso
      rcases hfst with hf | hf
      · rw [hf] at hc
        exact hl (List.isEmpty_iff.mp hc.2.2)
      · have : (enrichmentLookup ⟨sc, .items l, cr, dryb, si⟩ h).fst = l := by
          unfold enrichmentLookup
          rw [if_pos (by exact ⟨hc.1, hc.2.1⟩)]
        rw [this] at hc
        exact hl (List.isEmpty_iff.mp hc.2.2)
    · rw [if_neg (by simpa using hc)]
      cases dryb <;> cases cr <;> simp


/-- Environment in which the Sage lookup raises a `SageConnectionError`. -/
def envSageDown : Flow1Env :=
  { sageConfigured := true
    sageResult := .connError "db down"
    createResult := .ok
    dry := false
    storeId := none }

/-- Witness for C2: with Sage configured, an order number present and the
lookup raising a connection error, the unit is held. -/
theorem flow1_enrichment_hold_witness :
    firstPackageMismatch hdrBase detailOk = false
    ∧ (runFlow1Unit envSageDown hdrBase detailOk).result
        = .heldForDecision ("Query error: " ++ "db down") :=
  ⟨by decide,
   (flow1_enrichment_hold_characterization envSageDown hdrBase detailOk
      (by decide) (by decide) (by decide)).2.1 "db down" rfl rfl (by decide)⟩

/-- C2 counterexample: a unit whose enrichment lookup raises a connection
error enters the held cohort (files left in place, no remote call) instead
of proceeding immediately as the claim states. -/
theorem flow1_lookup_error_unit_held :
    runFlow1Unit envSageDown hdrBase detailOk =
      { result := .heldForDecision "Query error: db down",
        remoteCalled := false, pendingWritten := false, movedTo := none } := by
  decide

/-! ### Claim C8 — void / RateOnly short-circuit -/

/-- C8 (amended): a work unit whose parsed header has `void = Y` or
`RateOnly = Y` (case-insensitively) **and** which passes the first-package
identifier consistency check makes no remote gateway call, writes no
PendingEntry, and is relocated to the processed area on a non-dry run,
counted as skipped. -/
theorem flow1_void_rateonly_short_circuit (env : Flow1Env)
    (h : ShipmentHeader) (d : ShipmentDetail)
    (hval : firstPackageMismatch h d = false)
    (hflag : pyUpper h.void = "Y" ∨ pyUpper h.rate_only = "Y")
    (hdry : env.dry = false) :
    runFlow1Unit env h d =
      { result := .skipped, remoteCalled := false, pendingWritten := false,
        movedTo := some Folder.processed } := by
  unfold runFlow1Unit
  rw [if_neg (by simp [hval])]
  by_cases hvd : pyUpper h.void = "Y"
  · rw [if_pos (by simp [hvd]), hdry]
    rfl
  · rcases hflag with hf | hf
    · exact absurd hf hvd
    · rw [if_neg (by simp [hvd]), if_pos (by simp [hf]), hdry]
      rfl

/-- Witness for C8: a void header with a consistent package is skipped to
the processed area without any remote call or pending write. -/
theorem flow1_void_rateonly_witness :
    runFlow1Unit envPlain { hdrBase with void := "Y" } detailOk =
      { result := .skipped, remoteCalled := false, pendingWritten := false,
        movedTo := some Folder.processed } :=
  flow1_void_rateonly_short_circuit envPlain { hdrBase with void := "Y" }
    detailOk (by decide) (Or.inl (by decide)) rfl

/-- C8 counterexample: a `void = Y` unit whose first package identifier
mismatches the header is relocated to the **error** area (the consistency
validation precedes the void check), so the claim's unconditional
"terminates as processed, counted as skipped" is false. -/
theorem flow1_void_mismatch_goes_to_error :
    runFlow1Unit envPlain { hdrBase with void := "Y" }
        { packages := [{ shipment_id := "SHIP9999" }] } =
      { result := .permError (mismatchMsg { hdrBase with void := "Y" }
          { packages := [{ shipment_id := "SHIP9999" }] }),
        remoteCalled := false, pendingWritten := false,
        movedTo := some Folder.error } := by
  decide

/-! ## Remote gateway retry discipline — `src/shipstation_client.py`

`ShipStationClient._request_with_retry` is embedded as a recursion over the
remaining attempts.  What the network does on the k-th attempt is an input
(`responses : Nat → Attempt`, 1-based as in the Python `range(1, n+1)`
loop); the returned pair carries the outcome and the log of `time.sleep`
durations, so the fixed-delay/Retry-After behaviour is part of the
statement. -/

/-- What one HTTP attempt yields: a `requests.RequestException`, or a
response with a status code, an optional numeric `Retry-After` header and
a body. -/
inductive Attempt where
  | netError (e : String)
  | response (status : Nat) (retryAfter : Option Nat) (body : String)
deriving DecidableEq

/-- The cause recorded in `last_error` for a retryable attempt. -/
inductive TransientCause where
  | rateLimited
  | serverError (status : Nat) (body : String)
  | network (e : String)
deriving DecidableEq

/-- Result of `_request_with_retry`.  `permanentError` is the
`ShipStationError` raise; `transientExhausted` is the final
`raise last_error` of a `ShipStationTransientError`; `raisedNone` is the
`raise None` that would occur if `retry_attempts` were 0. -/
inductive ReqOutcome where
  | success (body : String)
  | permanentError (status : Nat) (body : String)
  | transientExhausted (cause : TransientCause)
  | raisedNone
deriving DecidableEq

/-- Is this attempt outcome retried by the loop (network error, 429, 5xx)? -/
def retryable (a : Attempt) : Bool :=
  match a with
  | .netError _ => true
  | .response status _ _ => status = 429 || 500 ≤ status

/-- The `time.sleep` duration the loop performs for a retryable attempt:
the `Retry-After` header when present on a 429, the fixed `retry_delay`
otherwise. -/
def waitOf (delay : Nat) (a : Attempt) : Nat :=
  match a with
  | .netError _ => delay
  | .response status ra _ => if status = 429 then ra.getD delay else delay

/-- The `last_error` cause a retryable attempt leaves behind. -/
def causeOf (a : Attempt) : TransientCause :=
  match a with
  | .netError e => .network e
  | .response status _ body =>
    if status = 429 then .rateLimited else .serverError status body

/-- The attempt loop of `_request_with_retry` (lines 146–191): `attempt` is
the 1-based attempt number, the second argument the number of attempts
still allowed, `last` the pending `last_error`.  Returns the outcome and
the list of sleep durations. -/
def requestLoop (delay : Nat) (responses : Nat → Attempt) :
    Nat → Nat → Option TransientCause → ReqOutcome × List Nat
  | _, 0, last =>
    (match last with
     | some c => .transientExhausted c
     | none => .raisedNone, [])
  | attempt, r + 1, _ =>
    match responses attempt with
    | .netError e =>
      let res := requestLoop delay responses (attempt + 1) r (some (.network e))
      (res.1, delay :: res.2)
    | .response status ra body =>
      if status = 429 then
        let res := requestLoop delay responses (attempt + 1) r (some .rateLimited)
        (res.1, ra.getD delay :: res.2)
      else if 500 ≤ status then
        let res := requestLoop delay responses (attempt + 1) r
          (some (.serverError status body))
        (res.1, delay :: res.2)
      else if 400 ≤ status then
        (.permanentError status body, [])
      else
        (.success body, [])

/-- `_request_with_retry` itself: `retry_attempts` total attempts starting
at attempt 1 with no pending error. -/
def requestWithRetry (retry_attempts retry_delay : Nat)
    (responses : Nat → Attempt) : ReqOutcome × List Nat :=
  requestLoop retry_delay responses 1 retry_attempts none

/-- Outcome of running out the loop from `attempt` with `r` attempts left,
when every attempt in that window is retryable. -/
def finalAfter (responses : Nat → Attempt) :
    Nat → Nat → Option TransientCause → ReqOutcome
  | _, 0, last =>
    match last with
    | some c => .transientExhausted c
    | none => .raisedNone
  | attempt, r + 1, _ =>
    finalAfter responses (attempt + 1) r (some (causeOf (responses attempt)))

lemma requestLoop_all_retryable (delay : Nat) (responses : Nat → Attempt) :
    ∀ r attempt last,
    (∀ k, attempt ≤ k → k < attempt + r → retryable (responses k) = true) →
    requestLoop delay responses attempt r last
      = (finalAfter responses attempt r last,
         (List.range' attempt r).map (fun k => waitOf delay (responses k))) := by
  intro r
  induction r with
  | zero =>
    intro attempt last _
    cases last <;> rfl
  | succ r ih =>
    intro attempt last hall
    have hhead := hall attempt (le_refl _) (by omega)
    have htail : ∀ k, attempt + 1 ≤ k → k < attempt + 1 + r →
        retryable (responses k) = true := by
      intro k h1 h2
      exact hall k (by omega) (by omega)
    rw [List.range'_succ]
    cases ha : responses attempt with
    | netError e =>
      simp only [requestLoop, ha, ih (attempt + 1) _ htail, finalAfter,
        List.map_cons, causeOf, waitOf]
    | response status ra body =>
      by_cases h429 : status = 429
      · simp only [requestLoop, ha, if_pos h429, ih (attempt + 1) _ htail,
          finalAfter, List.map_cons, causeOf, waitOf]
      · have h5 : 500 ≤ status := by
          have hh := hhead
          rw [ha] at hh
          simp only [retryable, Bool.or_eq_true, decide_eq_true_eq] at hh
          rcases hh with h | h
          · exact absurd h h429
          · exact h
        simp only [requestLoop, ha, if_neg h429, if_pos h5,
          ih (attempt + 1) _ htail, finalAfter, List.map_cons, causeOf, waitOf]

lemma finalAfter_pos (responses : Nat → Attempt) :
    ∀ r attempt last, 0 < r →
    finalAfter responses attempt r last
      = .transientExhausted (causeOf (responses (attempt + r - 1))) := by
  intro r
  induction r with
  | zero =>
    intro attempt last h
    omega
  | succ r ih =>
    intro attempt last _
    cases r with
    | zero => rfl
    | succ m =>
      have hstep : finalAfter responses attempt (m + 1 + 1) last
          = finalAfter responses (attempt + 1) (m + 1)
              (some (causeOf (responses attempt))) := rfl
      rw [hstep, ih (attempt + 1) _ (by omega)]
      have harith : attempt + 1 + (m + 1) - 1 = attempt + (m + 1 + 1) - 1 := by
        omega
      rw [harith]

/-! ### Claim C5 — the retry contract -/

/-- C5: (a) a 4xx response other than 429 on the first attempt raises a
permanent failure immediately, with no sleep and no further attempt;
(b) when every attempt is retryable (network error, 429, 5xx) the loop
consumes exactly the configured attempt count, sleeping the fixed delay per
attempt except that a 429 waits the server-supplied Retry-After duration
when that header is present, and then raises a transient failure carrying
the last cause; (c) the transient failure is a different outcome from the
permanent one. -/
theorem shipstation_retry_contract (n delay : Nat) (responses : Nat → Attempt)
    (hn : 1 ≤ n) :
    (∀ status ra body, responses 1 = .response status ra body →
      400 ≤ status → status < 500 → status ≠ 429 →
      requestWithRetry n delay responses = (.permanentError status body, []))
    ∧ ((∀ k, 1 ≤ k → k ≤ n → retryable (responses k) = true) →
      requestWithRetry n delay responses
        = (.transientExhausted (causeOf (responses n)),
           (List.range' 1 n).map (fun k => waitOf delay (responses k))))
    ∧ (∀ c status body,
        (ReqOutcome.transientExhausted c) ≠ .permanentError status body) := by
  refine ⟨?_, ?_, ?_⟩
  · intro status ra body h1 h400 h500 h429
    obtain ⟨m, rfl⟩ : ∃ m, n = m + 1 := ⟨n - 1, by omega⟩
    unfold requestWithRetry
    simp only [requestLoop, h1]
    rw [if_neg h429, if_neg (by omega), if_pos h400]
  · intro hall
    unfold requestWithRetry
    rw [requestLoop_all_retryable delay responses n 1 none
        (fun k h1 h2 => hall k h1 (by omega)),
      finalAfter_pos responses n 1 none (by omega)]
    have harith : 1 + n - 1 = n := by omega
    rw [harith]
  · intro c status body h
    cases h

/-- Sample attempt stream: 429 with a Retry-After of 7, then a 503, then a
network error. -/
def respW : Nat → Attempt := fun k =>
  if k = 1 then .response 429 (some 7) "rl"
  else if k = 2 then .response 503 none "oops"
  else .netError "reset"

/-- Sample attempt stream: every attempt is a 404. -/
def respPerm : Nat → Attempt := fun _ => .response 404 none "nf"

/-- Witness for C5: with 3 attempts and delay 5, the all-retryable stream
exhausts into a transient failure having slept 7, 5, 5; the 404 stream
fails permanently at once with no sleeps. -/
theorem shipstation_retry_contract_witness :
    requestWithRetry 3 5 respW
      = (.transientExhausted (.network "reset"), [7, 5, 5])
    ∧ requestWithRetry 3 5 respPerm = (.permanentError 404 "nf", []) := by
  constructor
  · have h := (shipstation_retry_contract 3 5 respW (by decide)).2.1
      (by intro k h1 h2; interval_cases k <;> decide)
    rw [h]
    decide
  · exact (shipstation_retry_contract 3 5 respPerm (by decide)).1
      404 none "nf" rfl (by decide) (by decide) (by decide)

/-! ## Intake scanner — `src/file_manager.py`

`scan_for_pairs` walks the directory listing, classifies each filename with
the two case-insensitive patterns
`^HeaderIn_([A-Za-z]+\d+)_.*\.xml$` / `^DetailIn_([A-Za-z]+\d+)_.*\.xml$`,
stores `shipment_id → filepath` into one dict per role (a later file with
the same id silently overwrites an earlier one), and then walks the sorted
union of the id sets emitting pairs and orphan log lines.  The directory
listing is the input list of filenames; since the folder prefix added by
`os.path.join` is a run-wide constant, the filename stands for the path.
A Python dict used this way is its key set plus its lookup function. -/

/-- Consume `pfx` (given lowercase) case-insensitively from the front of
`cs`, returning the remainder. -/
def stripPrefixCI : List Char → List Char → Option (List Char)
  | [], rest => some rest
  | _ :: _, [] => none
  | p :: ps, c :: cs => if c.toLower = p then stripPrefixCI ps cs else none

/-- Does the character list end in `.xml`, case-insensitively? -/
def endsWithXmlCI (cs : List Char) : Bool :=
  match cs.reverse with
  | l :: m :: x :: d :: _ =>
    l.toLower = 'l' && m.toLower = 'm' && x.toLower = 'x' && d = '.'
  | _ => false

/-- Match `^<pfx>([A-Za-z]+\d+)_.*\.xml$` (with `re.IGNORECASE`) against a
filename and return the captured group.  Backtracking makes the capture
the maximal alphabetic run followed by the maximal digit run, which must be
followed by a literal underscore and a tail ending in `.xml`. -/
def roleSid (pfx : List Char) (filename : String) : Option String :=
  match stripPrefixCI pfx filename.data with
  | none => none
  | some rest =>
    let alpha := rest.takeWhile Char.isAlpha
    let rest2 := rest.dropWhile Char.isAlpha
    let digits := rest2.takeWhile Char.isDigit
    let rest3 := rest2.dropWhile Char.isDigit
    if alpha.isEmpty then none
    else if digits.isEmpty then none
    else
      match rest3 with
      | '_' :: tail =>
        if endsWithXmlCI tail then some ⟨alpha ++ digits⟩ else none
      | _ => none

/-- `_HEADER_PATTERN` applied to a filename. -/
def headerSid (filename : String) : Option String :=
  roleSid "headerin_".data filename

/-- `_DETAIL_PATTERN` applied to a filename. -/
def detailSid (filename : String) : Option String :=
  roleSid "detailin_".data filename

/-- A Python dict as the scanner uses one: its key set (order is irrelevant
because the only key iteration is `sorted(all_ids)`) and its lookup. -/
structure PyDict where
  keys : Finset String
  val : String → Option String

/-- The empty dict. -/
def PyDict.empty : PyDict := ⟨∅, fun _ => none⟩

/-- `d[k] = v`: overwrites any previous binding. -/
def PyDict.insert (d : PyDict) (k v : String) : PyDict :=
  ⟨Insert.insert k d.keys, fun x => if x = k then some v else d.val x⟩

lemma pydict_ext (d₁ d₂ : PyDict) (hk : d₁.keys = d₂.keys)
    (hv : ∀ k, d₁.val k = d₂.val k) : d₁ = d₂ := by
  cases d₁
  cases d₂
  simp only at hk hv
  simp [hk, funext hv]

/-- One step of the classification loop: file `f` is entered into the dict
when the pattern matches. -/
def buildStep (pat : String → Option String) (d : PyDict) (f : String) :
    PyDict :=
  match pat f with
  | some sid => d.insert sid f
  | none => d

/-- The classification loop over the directory listing. -/
def buildDict (pat : String → Option String) (files : List String) : PyDict :=
  files.foldl (buildStep pat) PyDict.empty

/-- A matched HeaderIn + DetailIn pair (`FilePair` in
`src/file_manager.py`). -/
structure FilePair where
  shipment_id : String
  header_path : String
  detail_path : String
deriving DecidableEq

/-- Which half of an orphaned id was present (the two
`logger.error` lines of `scan_for_pairs`; note a log line carries only the
shipment id, not a file path). -/
inductive OrphanRole where
  | headerOnly
  | detailOnly
deriving DecidableEq

/-- The pairing loop over `sorted(all_ids)`, producing the returned pairs
and the orphan log. -/
def scanFromDicts (headers details : PyDict) :
    List FilePair × List (String × OrphanRole) :=
  let allIds := headers.keys ∪ details.keys
  let sortedIds := allIds.sort (· ≤ ·)
  (sortedIds.filterMap fun sid =>
    match headers.val sid, details.val sid with
    | some hp, some dp => some ⟨sid, hp, dp⟩
    | _, _ => none,
   sortedIds.filterMap fun sid =>
    match headers.val sid, details.val sid with
    | some _, none => some (sid, .headerOnly)
    | none, some _ => some (sid, .detailOnly)
    | _, _ => none)

/-- `scan_for_pairs` in `src/file_manager.py`. -/
def scan_for_pairs (files : List String) :
    List FilePair × List (String × OrphanRole) :=
  scanFromDicts (buildDict headerSid files) (buildDict detailSid files)

/-! ### Dict lemmas -/

/-- Value-level shadow of `buildStep`. -/
def lookupStep (pat : String → Option String) (k : String)
    (acc : Option String) (f : String) : Option String :=
  match pat f with
  | some sid => if k = sid then some f else acc
  | none => acc

/-- Value-level shadow of `buildDict`. -/
def lookupFold (pat : String → Option String) (k : String)
    (files : List String) (a : Option String) : Option String :=
  files.foldl (lookupStep pat k) a

lemma buildStep_val (pat : String → Option String) (d : PyDict)
    (f k : String) :
    (buildStep pat d f).val k = lookupStep pat k (d.val k) f := by
  cases hpf : pat f <;> simp [buildStep, lookupStep, hpf, PyDict.insert]

lemma buildDict_val_from (pat : String → Option String) (files : List String) :
    ∀ (d : PyDict) (k : String),
      ((files.foldl (buildStep pat) d).val k) = lookupFold pat k files (d.val k) := by
  induction files with
  | nil => intro d k; rfl
  | cons f fs ih =>
    intro d k
    show ((fs.foldl (buildStep pat) (buildStep pat d f)).val k) = _
    rw [ih (buildStep pat d f) k, buildStep_val]
    rfl

lemma buildDict_val (pat : String → Option String) (files : List String)
    (k : String) :
    (buildDict pat files).val k = lookupFold pat k files none :=
  buildDict_val_from pat files PyDict.empty k

lemma buildDict_keys_from (pat : String → Option String) (files : List String) :
    ∀ (d : PyDict) (k : String),
      (k ∈ (files.foldl (buildStep pat) d).keys
        ↔ k ∈ d.keys ∨ ∃ f ∈ files, pat f = some k) := by
  induction files with
  | nil => intro d k; simp
  | cons f fs ih =>
    intro d k
    show (k ∈ (fs.foldl (buildStep pat) (buildStep pat d f)).keys ↔ _)
    rw [ih (buildStep pat d f) k]
    cases hpf : pat f with
    | none =>
      simp only [buildStep, hpf, List.mem_cons]
      constructor
      · rintro (hk | ⟨x, hx, hpx⟩)
        · exact Or.inl hk
        · exact Or.inr ⟨x, Or.inr hx, hpx⟩
      · rintro (hk | ⟨x, hx | hx, hpx⟩)
        · exact Or.inl hk
        · subst hx
          rw [hpf] at hpx
          cases hpx
        · exact Or.inr ⟨x, hx, hpx⟩
    | some sid =>
      simp only [buildStep, hpf, PyDict.insert, Finset.mem_insert, List.mem_cons]
      constructor
      · rintro ((hk | hk) | ⟨x, hx, hpx⟩)
        · subst hk
          exact Or.inr ⟨f, Or.inl rfl, hpf⟩
        · exact Or.inl hk
        · exact Or.inr ⟨x, Or.inr hx, hpx⟩
      · rintro (hk | ⟨x, hx | hx, hpx⟩)
        · exact Or.inl (Or.inr hk)
        · subst hx
          rw [hpf] at hpx
          injection hpx with hsk
          exact Or.inl (Or.inl hsk.symm)
        · exact Or.inr ⟨x, hx, hpx⟩

lemma buildDict_keys (pat : String → Option String) (files : List String)
    (k : String) :
    k ∈ (buildDict pat files).keys ↔ ∃ f ∈ files, pat f = some k := by
  rw [buildDict, buildDict_keys_from]
  simp [PyDict.empty]

lemma lookupFold_append (pat : String → Option String) (k : String)
    (l₁ l₂ : List String) (a : Option String) :
    lookupFold pat k (l₁ ++ l₂) a = lookupFold pat k l₂ (lookupFold pat k l₁ a) :=
  List.foldl_append _ _ _ _

lemma lookupFold_overwrite (pat : String → Option String) (k : String) :
    ∀ (files : List String), (∃ x ∈ files, pat x = some k) →
    ∀ a b, lookupFold pat k files a = lookupFold pat k files b := by
  intro files
  induction files with
  | nil =>
    rintro ⟨x, hx, _⟩
    cases hx
  | cons y ys ih =>
    rintro ⟨x, hx, hpx⟩ a b
    rcases List.mem_cons.mp hx with hxy | hxy
    · subst hxy
      show lookupFold pat k ys (lookupStep pat k a x)
          = lookupFold pat k ys (lookupStep pat k b x)
      rw [lookupStep, lookupStep]
      split
      · next sid heq =>
        rw [hpx] at heq
        injection heq with hs
        rw [if_pos hs, if_pos hs]
      · next heq =>
        rw [hpx] at heq
        cases heq
    · exact ih ⟨x, hxy, hpx⟩ _ _

lemma lookupFold_noMatch (pat : String → Option String) (k : String) :
    ∀ (files : List String), (∀ x ∈ files, pat x ≠ some k) →
    ∀ a, lookupFold pat k files a = a := by
  intro files
  induction files with
  | nil => intro _ a; rfl
  | cons y ys ih =>
    intro hno a
    show lookupFold pat k ys (lookupStep pat k a y) = a
    have hy : lookupStep pat k a y = a := by
      rw [lookupStep]
      split
      · next sid heq =>
        rw [if_neg]
        intro hk
        exact hno y (List.mem_cons_self _ _) (by rw [heq, hk])
      · rfl
    rw [hy]
    exact ih (fun x hx => hno x (List.mem_cons_of_mem _ hx)) a

/-- Removing a file the pattern does not match leaves the dict unchanged. -/
lemma buildDict_skip (pat : String → Option String) (x : String)
    (hx : pat x = none) (l₁ l₂ : List String) :
    buildDict pat (l₁ ++ x :: l₂) = buildDict pat (l₁ ++ l₂) := by
  unfold buildDict
  rw [List.foldl_append, List.foldl_append, List.foldl_cons]
  have hstep : buildStep pat (l₁.foldl (buildStep pat) PyDict.empty) x
      = l₁.foldl (buildStep pat) PyDict.empty := by
    rw [buildStep, hx]
  rw [hstep]

/-- A same-pattern, same-id file occurring before a later one is invisible
in the final dict: the later assignment overwrites the value and the key
set is unchanged. -/
lemma buildDict_shadow (pat : String → Option String) (l₁ l₂ l₃ : List String)
    (f g sid : String) (hf : pat f = some sid) (hg : pat g = some sid) :
    buildDict pat (l₁ ++ f :: (l₂ ++ g :: l₃))
      = buildDict pat (l₁ ++ (l₂ ++ g :: l₃)) := by
  apply pydict_ext
  · apply Finset.ext
    intro k
    rw [buildDict_keys, buildDict_keys]
    constructor
    · rintro ⟨x, hx, hpx⟩
      rcases List.mem_append.mp hx with hx1 | hx2
      · exact ⟨x, List.mem_append.mpr (Or.inl hx1), hpx⟩
      · rcases List.mem_cons.mp hx2 with hxf | hxr
        · subst hxf
          rw [hf] at hpx
          injection hpx with hs
          subst hs
          exact ⟨g, List.mem_append.mpr (Or.inr (List.mem_append.mpr
            (Or.inr (List.mem_cons_self _ _)))), hg⟩
        · exact ⟨x, List.mem_append.mpr (Or.inr hxr), hpx⟩
    · rintro ⟨x, hx, hpx⟩
      rcases List.mem_append.mp hx with hx1 | hx2
      · exact ⟨x, List.mem_append.mpr (Or.inl hx1), hpx⟩
      · exact ⟨x, List.mem_append.mpr (Or.inr (List.mem_cons_of_mem _ hx2)), hpx⟩
  · intro k
    rw [buildDict_val, buildDict_val, lookupFold_append, lookupFold_append]
    show lookupFold pat k (l₂ ++ g :: l₃)
        (lookupStep pat k (lookupFold pat k l₁ none) f) = _
    by_cases hk : k = sid
    · subst hk
      exact lookupFold_overwrite pat k (l₂ ++ g :: l₃)
        ⟨g, List.mem_append.mpr (Or.inr (List.mem_cons_self _ _)), hg⟩ _ _
    · have : lookupStep pat k (lookupFold pat k l₁ none) f
          = lookupFold pat k l₁ none := by
        rw [lookupStep, hf]
        exact if_neg hk
      rw [this]

/-! ### Claim C10 — duplicate same-role files -/

/-- C10: when the listing holds two header files `f` (earlier) and `g`
(later, and last for its id) that both yield the same shipment id, the scan
result — pairs **and** orphan log — is identical to the scan of the listing
without `f`; the headers dict resolves the id to `g`, and whenever a detail
for the id is present the returned pair carries `g`'s path.  The shadowed
`f` is thus in no pair, in no orphan report, and (scanning being
read-only) left in place. -/
theorem scan_shadowed_header_invisible (l₁ l₂ l₃ : List String)
    (f g sid : String)
    (hf : headerSid f = some sid) (hg : headerSid g = some sid)
    (hfd : detailSid f = none)
    (hlast : ∀ x ∈ l₃, headerSid x ≠ some sid) :
    scan_for_pairs (l₁ ++ f :: (l₂ ++ g :: l₃))
      = scan_for_pairs (l₁ ++ (l₂ ++ g :: l₃))
    ∧ (buildDict headerSid (l₁ ++ f :: (l₂ ++ g :: l₃))).val sid = some g
    ∧ ∀ dp, (buildDict detailSid (l₁ ++ f :: (l₂ ++ g :: l₃))).val sid = some dp →
        (⟨sid, g, dp⟩ : FilePair)
          ∈ (scan_for_pairs (l₁ ++ f :: (l₂ ++ g :: l₃))).fst := by
  have hval : (buildDict headerSid (l₁ ++ f :: (l₂ ++ g :: l₃))).val sid
      = some g := by
    rw [buildDict_val, lookupFold_append]
    show lookupFold headerSid sid (l₂ ++ g :: l₃)
        (lookupStep headerSid sid (lookupFold headerSid sid l₁ none) f)
      = some g
    rw [lookupFold_append]
    show lookupFold headerSid sid l₃
        (lookupStep headerSid sid
          (lookupFold headerSid sid l₂
            (lookupStep headerSid sid (lookupFold headerSid sid l₁ none) f)) g)
      = some g
    have hstep : ∀ a, lookupStep headerSid sid a g = some g := by
      intro a
      rw [lookupStep, hg]
      exact if_pos rfl
    rw [hstep]
    exact lookupFold_noMatch headerSid sid l₃ hlast (some g)
  refine ⟨?_, hval, ?_⟩
  · unfold scan_for_pairs
    rw [buildDict_shadow headerSid l₁ l₂ l₃ f g sid hf hg,
      buildDict_skip detailSid f hfd l₁ (l₂ ++ g :: l₃)]
  · intro dp hdp
    have hkeys : sid ∈ (buildDict headerSid (l₁ ++ f :: (l₂ ++ g :: l₃))).keys :=
      (buildDict_keys _ _ _).mpr
        ⟨g, List.mem_append.mpr (Or.inr (List.mem_cons_of_mem _
          (List.mem_append.mpr (Or.inr (List.mem_cons_self _ _))))), hg⟩
    unfold scan_for_pairs scanFromDicts
    apply List.mem_filterMap.mpr
    refine ⟨sid, ?_, ?_⟩
    · exact (Finset.mem_sort _).mpr (Finset.mem_union_left _ hkeys)
    · rw [hval, hdp]

/-- Witness for C10: two header files for `SHIP1` plus one detail; the scan
equals the scan without the earlier header, and the dict keeps the later
header's path. -/
theorem scan_shadowed_header_invisible_witness :
    headerSid "HeaderIn_SHIP1_a.xml" = some "SHIP1"
    ∧ scan_for_pairs
        ["HeaderIn_SHIP1_a.xml", "HeaderIn_SHIP1_b.xml", "DetailIn_SHIP1_c.xml"]
      = scan_for_pairs ["HeaderIn_SHIP1_b.xml", "DetailIn_SHIP1_c.xml"]
    ∧ (buildDict headerSid
        ["HeaderIn_SHIP1_a.xml", "HeaderIn_SHIP1_b.xml", "DetailIn_SHIP1_c.xml"]).val
        "SHIP1" = some "HeaderIn_SHIP1_b.xml" := by
  have h := scan_shadowed_header_invisible [] [] ["DetailIn_SHIP1_c.xml"]
    "HeaderIn_SHIP1_a.xml" "HeaderIn_SHIP1_b.xml" "SHIP1"
    (by decide) (by decide) (by decide) (by decide)
  exact ⟨by decide, h.1, h.2.1⟩

/-! ## Pending ledger records and Flow 2 — `qpss_middleware.py`, `src/xml_generator.py`

The pending JSON written by `_save_pending_shipment` and consumed by
Flow 2; the Pending folder is an association list keyed by shipment id
(one `{sid}.json` file per id).  The OUT generation (`generate_out_files`)
is embedded at the field level: the `_add` whitespace padding and
`_fmt_decimal` fixed-precision rendering are XML serialization and are not
re-modelled; numeric values stay `Rat`. -/

/-- One entry of the `packages` list of a pending JSON. -/
structure PendingPackage where
  package_id : String := ""
  package_no : Int := 1
  weight : Rat := 0
  length : Rat := 0
  width : Rat := 0
  height : Rat := 0
  declared_value : Rat := 0
  cod_amount : Rat := 0
  units : String := "LB"
  comment : String := ""
deriving DecidableEq

/-- The `ship_to` dict of a pending JSON. -/
structure PendingShipTo where
  name : String := ""
  company : String := ""
  street1 : String := ""
  street2 : String := ""
  street3 : String := ""
  city : String := ""
  state : String := ""
  country : String := ""
  postalCode : String := ""
  phone : String := ""
  email : String := ""
  residential : Bool := false
deriving DecidableEq

/-- One entry of the `items` list of a pending JSON. -/
structure PendingItem where
  line_number : Int := 0
  item_number : String := ""
  description : String := ""
  qty_ordered : Rat := 0
  unit_price : Rat := 0
deriving DecidableEq

/-- A pending JSON file (`_save_pending_shipment`). -/
structure PendingEntry where
  shipment_id : String := ""
  order_number : String := ""
  customer_code : String := ""
  ship_to : PendingShipTo := {}
  ship_via : String := ""
  is_cod : String := "0"
  coll_type : String := ""
  packages : List PendingPackage := []
  items : List PendingItem := []
  account : String := "shipstation"
  created_at : String := ""
deriving DecidableEq

/-- A shipment dict returned by ShipStation `GET /shipments`
(the fields Flow 2 reads). -/
structure SSShipment where
  shipmentId : Nat
  orderNumber : String := ""
  trackingNumber : String := ""
  carrierCode : String := ""
  serviceCode : String := ""
  shipDate : String := ""
  weight : Option SSWeight := none
  dimensions : Option SSDimensions := none
deriving DecidableEq

/-- The warehouse ship-from dict required by `generate_out_files`. -/
structure ShipFrom where
  account_no : String := ""
  name : String := ""
  addr1 : String := ""
  addr2 : String := ""
  addr3 : String := ""
  addr4 : String := ""
  city : String := ""
  state : String := ""
  zip : String := ""
  country : String := ""
  contact : String := ""
  phone : String := ""
deriving DecidableEq

/-- `_to_yyyymmdd` in `src/xml_generator.py`: first ten characters with the
dashes removed, empty input passed through. -/
def toYyyymmdd (iso : String) : String :=
  if iso = "" then "" else ⟨(iso.data.take 10).filter (fun c => c ≠ '-')⟩

/-- The HEADEROUT record built by `_build_header_out` (field values before
XML rendering). -/
structure OutHeader where
  shipmentID : String
  pShipmentID : String
  voidFlag : String
  errormessage : String
  carriercode : String
  carrierservice : String
  shipvia : String
  trackingNumber : String
  shipDate : String
  shiptoID : String
  shipName : String
  shipAddr1 : String
  shipAddr2 : String
  shipAddr3 : String
  shipCity : String
  shipState : String
  shipCountry : String
  shipzip : String
  shipContact : String
  shipPhone : String
  shipEmail : String
  isCOD : String
  isResidential : String
  reference : String
  colltype : String
  shipperCost : String
  sfAccountNo : String
  sfName : String
  sfAddr1 : String
  sfCity : String
  sfState : String
  sfZip : String
  sfCountry : String
  sfContact : String
  sfPhone : String
deriving DecidableEq

/-- One `DetailLine` of the DETAILOUT file (numeric fields as values;
`_fmt_decimal` rendering is serialization). -/
structure DetailLine where
  shipmentID : String
  pShipmentID : String
  packageID : String
  packageNo : Int
  weight : Rat
  length : Rat
  width : Rat
  height : Rat
  declaredValue : Rat
  codAmount : Rat
  units : String
  trackingNumber : String
  comment : String
deriving DecidableEq

/-- `_build_header_out`: merge of the pending snapshot with the shipment's
tracking/carrier/service/date fields. -/
def buildHeaderOut (pending : PendingEntry) (shipment : SSShipment)
    (ship_from : ShipFrom) : OutHeader :=
  { shipmentID := pending.shipment_id
    pShipmentID := pending.order_number
    voidFlag := "N"
    errormessage := ""
    carriercode := shipment.carrierCode
    carrierservice := shipment.serviceCode
    shipvia := pending.ship_via
    trackingNumber := shipment.trackingNumber
    shipDate := toYyyymmdd shipment.shipDate
    shiptoID := pending.ship_to.company
    shipName := pending.ship_to.name
    shipAddr1 := pending.ship_to.street1
    shipAddr2 := pending.ship_to.street2
    shipAddr3 := pending.ship_to.street3
    shipCity := pending.ship_to.city
    shipState := pending.ship_to.state
    shipCountry := pending.ship_to.country
    shipzip := pending.ship_to.postalCode
    shipContact := ""
    shipPhone := pending.ship_to.phone
    shipEmail := pending.ship_to.email
    isCOD := pending.is_cod
    isResidential := if pending.ship_to.residential then "1" else "0"
    reference := ""
    colltype := pending.coll_type
    shipperCost := "0.0000"
    sfAccountNo := ship_from.account_no
    sfName := ship_from.name
    sfAddr1 := ship_from.addr1
    sfCity := ship_from.city
    sfState := ship_from.state
    sfZip := ship_from.zip
    sfCountry := ship_from.country
    sfContact := ship_from.contact
    sfPhone := ship_from.phone }

/-- `_build_detail_out`: one DetailLine per original package, or a single
fallback line from shipment-level data when the package list is empty
(ounces converted to pounds). -/
def buildDetailOut (shipment_id order_number : String) (shipment : SSShipment)
    (packages : List PendingPackage) : List DetailLine :=
  let tracking := shipment.trackingNumber
  match packages with
  | [] =>
    let weightVal :=
      match shipment.weight with
      | some w => if w.units = "ounces" ∧ w.value ≠ 0 then w.value / 16 else w.value
      | none => 0
    let dims := shipment.dimensions
    [{ shipmentID := shipment_id, pShipmentID := order_number,
       packageID := "", packageNo := 1, weight := weightVal,
       length := (dims.map (·.length)).getD 0,
       width := (dims.map (·.width)).getD 0,
       height := (dims.map (·.height)).getD 0,
       declaredValue := 0, codAmount := 0, units := "LB",
       trackingNumber := tracking, comment := "" }]
  | _ :: _ =>
    packages.map fun pkg =>
      { shipmentID := shipment_id, pShipmentID := order_number,
        packageID := pkg.package_id, packageNo := pkg.package_no,
        weight := pkg.weight, length := pkg.length, width := pkg.width,
        height := pkg.height, declaredValue := pkg.declared_value,
        codAmount := pkg.cod_amount, units := pkg.units,
        trackingNumber := tracking, comment := pkg.comment }

/-- `generate_out_files` in `src/xml_generator.py`.  Note the signature:
`ship_from` is a **required** parameter with no default. -/
def generate_out_files (pending : PendingEntry) (shipment : SSShipment)
    (ship_from : ShipFrom) : OutHeader × List DetailLine :=
  (buildHeaderOut pending shipment ship_from,
   buildDetailOut pending.shipment_id pending.order_number shipment
     pending.packages)

/-- Result of a Python call that may fail to bind its arguments:
`typeError` is the `TypeError` Python raises before entering the callee
when a required argument is missing. -/
inductive PyCall (α : Type) where
  | ok (a : α)
  | typeError
deriving DecidableEq

/-- The call `generate_out_files(pending=..., shipment=..., out_folder=...)`
made by `run_flow2` (qpss_middleware.py lines 756–760) supplies **no**
`ship_from` argument, embedded here as the `Option ShipFrom` argument:
with `none` the call raises `TypeError` before the generator runs. -/
def callGenerateOutFiles (pending : PendingEntry) (shipment : SSShipment)
    (shipFromArg : Option ShipFrom) : PyCall (OutHeader × List DetailLine) :=
  match shipFromArg with
  | some sf => .ok (generate_out_files pending shipment sf)
  | none => .typeError

/-! ### Flow 2 state and run -/

/-- The Flow 2 state file (`_load_flow2_state` / `_save_flow2_state`). -/
structure Flow2State where
  last_poll_date : Option String
  processed_shipment_ids : List Nat
deriving DecidableEq

/-- Everything after the first underscore, if any. -/
def afterFirstUnderscore : List Char → Option (List Char)
  | [] => none
  | c :: rest => if c = '_' then some rest else afterFirstUnderscore rest

/-- `^[A-Za-z]+\d+$`: a non-empty alphabetic run followed by a non-empty
digit run and nothing else. -/
def alphaThenDigits (cs : List Char) : Bool :=
  let alpha := cs.takeWhile Char.isAlpha
  let rest := cs.dropWhile Char.isAlpha
  !alpha.isEmpty && !rest.isEmpty && rest.all Char.isDigit

/-- `_is_our_order` in `qpss_middleware.py`: an underscore is present and
the part after the first underscore matches the shipment-id pattern. -/
def isOurOrder (orderNumber : String) : Bool :=
  match afterFirstUnderscore orderNumber.data with
  | none => false
  | some part2 => alphaThenDigits part2

/-- `order_num.split("_", 1)[1] if "_" in order_num else order_num`. -/
def shipmentIdOfOrder (orderNumber : String) : String :=
  match afterFirstUnderscore orderNumber.data with
  | some rest => ⟨rest⟩
  | none => orderNumber

/-- CPython enumerates a `set` of small non-negative ints in increasing
numeric order (ints below the hash-table size occupy the slot equal to
their value), independent of insertion order.  The Flow 2 dedup set holds
ShipStation shipment ids, which are such ints, so the set is modelled as
its canonical increasing enumeration; `pySetInsert` is `set.add`. -/
def pySetInsert (x : Nat) : List Nat → List Nat
  | [] => [x]
  | y :: ys =>
    if x < y then x :: y :: ys
    else if x = y then y :: ys
    else y :: pySetInsert x ys

/-- `set(stored_list)`: inserting in list order (= chronological order in
which the ids were first recorded). -/
def pySetOfList (l : List Nat) : List Nat :=
  l.foldl (fun s x => pySetInsert x s) []

/-- The hard-coded cap in `run_flow2`. -/
def MAX_PROCESSED_IDS : Nat := 500

/-- `id_list[-MAX_PROCESSED_IDS:]` applied when over the cap
(qpss_middleware.py lines 783–786): keeps the last `MAX_PROCESSED_IDS`
elements of the enumeration. -/
def trimIds (l : List Nat) : List Nat :=
  if l.length > MAX_PROCESSED_IDS then l.drop (l.length - MAX_PROCESSED_IDS)
  else l

/-- Per-shipment loop state of `run_flow2` (pending folder, dedup set,
counters, files written so far). -/
structure Flow2Acc where
  pendingStore : List (String × PendingEntry)
  ids : List Nat
  processed : Nat
  skipped : Nat
  errors : Nat
  outFiles : List (OutHeader × List DetailLine)
deriving DecidableEq

/-- `_load_pending_shipment`: lookup of `{sid}.json` in the Pending folder. -/
def lookupPending (store : List (String × PendingEntry)) (k : String) :
    Option PendingEntry :=
  (store.find? (fun e => e.fst = k)).map (·.snd)

/-- `_delete_pending_shipment`: idempotent removal of `{sid}.json`. -/
def deletePending (store : List (String × PendingEntry)) (k : String) :
    List (String × PendingEntry) :=
  store.filter (fun e => e.fst ≠ k)

/-- The body of the per-shipment loop of `run_flow2` (lines 721–775).
`shipFromArg` is what the generation call site passes for `ship_from`;
the actual call site passes nothing (`none`).  An exception inside the
loop body is caught by the blanket `except`: the error counter increments
and neither the pending file, the dedup set nor the counters are otherwise
touched. -/
def flow2Step (dry : Bool) (shipFromArg : Option ShipFrom)
    (acc : Flow2Acc) (s : SSShipment) : Flow2Acc :=
  let sid := shipmentIdOfOrder s.orderNumber
  match lookupPending acc.pendingStore sid with
  | none =>
    { acc with skipped := acc.skipped + 1,
               ids := pySetInsert s.shipmentId acc.ids }
  | some p =>
    if dry then { acc with processed := acc.processed + 1 }
    else
      match callGenerateOutFiles p s shipFromArg with
      | .typeError => { acc with errors := acc.errors + 1 }
      | .ok files =>
        { acc with outFiles := acc.outFiles ++ [files],
                   pendingStore := deletePending acc.pendingStore sid,
                   ids := pySetInsert s.shipmentId acc.ids,
                   processed := acc.processed + 1 }

/-- Result of one Flow 2 run: the state persisted at the end (`none` on a
dry run), the counters, the generated file pairs and the surviving pending
entries. -/
structure Flow2Run where
  savedState : Option Flow2State
  processed : Nat
  skipped : Nat
  errors : Nat
  outFiles : List (OutHeader × List DetailLine)
  pendingAfter : List (String × PendingEntry)
deriving DecidableEq

/-- `run_flow2` in `qpss_middleware.py` after the fetch phase.
`allShipments` is what the paginated fetch across all accounts
accumulated — an account whose fetch raised is skipped after contributing
the pages already read, so any prefix (including the empty list) is a
possible value.  The generation call site passes no `ship_from`
(lines 756–760), hence the `none` below. -/
def run_flow2 (state : Flow2State) (today : String)
    (allShipments : List SSShipment)
    (pendingStore : List (String × PendingEntry)) (dry : Bool) : Flow2Run :=
  let processedIds0 := pySetOfList state.processed_shipment_ids
  let newShipments := allShipments.filter
    (fun s => isOurOrder s.orderNumber && !(processedIds0.contains s.shipmentId))
  if newShipments.isEmpty then
    -- early return: "No new shipments to process" still advances the date
    { savedState := if dry then none
        else some { last_poll_date := some today,
                    processed_shipment_ids := state.processed_shipment_ids },
      processed := 0, skipped := 0, errors := 0, outFiles := [],
      pendingAfter := pendingStore }
  else
    let acc := newShipments.foldl (flow2Step dry none)
      { pendingStore := pendingStore, ids := processedIds0,
        processed := 0, skipped := 0, errors := 0, outFiles := [] }
    { savedState := if dry then none
        else some { last_poll_date := some today,
                    processed_shipment_ids := trimIds acc.ids },
      processed := acc.processed, skipped := acc.skipped,
      errors := acc.errors, outFiles := acc.outFiles,
      pendingAfter := acc.pendingStore }

/-! ### Claim C9 — the watermark always advances -/

/-- C9: a non-dry Flow 2 run persists a state whose `last_poll_date` is
today's date on every path — also when the accumulated fetch result is
empty because every account's fetch failed, or an account failed partway
through pagination (the fetched prefix is all that reaches the filter). -/
theorem flow2_watermark_always_advances (state : Flow2State) (today : String)
    (allShipments : List SSShipment)
    (pendingStore : List (String × PendingEntry)) :
    ∃ s', (run_flow2 state today allShipments pendingStore false).savedState
        = some s' ∧ s'.last_poll_date = some today := by
  simp only [run_flow2]
  split
  · exact ⟨_, rfl, rfl⟩
  · exact ⟨_, rfl, rfl⟩

/-! ### Claim C1 — the pending-present path -/

/-- A pending entry as Flow 1 would have written it for `TEST00001`. -/
def samplePending : PendingEntry :=
  { shipment_id := "TEST00001"
    order_number := "HO1002_TEST00001"
    customer_code := "HO1002"
    ship_via := "UPS"
    packages := [{ package_id := "PKG1", weight := 5, length := 18,
                   width := 12, height := 6 }]
    created_at := "2026-10-01T08:00:00" }

/-- The matching completed shipment returned by the poll. -/
def sampleShipment : SSShipment :=
  { shipmentId := 101
    orderNumber := "HO1002_TEST00001"
    trackingNumber := "1Z999AA10123456784"
    carrierCode := "ups"
    serviceCode := "ups_ground"
    shipDate := "2026-02-18T11:34:18.000" }

/-- C1 (code bug): on a non-dry run, a candidate shipment whose
PendingEntry is present makes `run_flow2` call `generate_out_files`
without the required `ship_from` argument, so the call raises `TypeError`
and is counted as an error: no output pair is generated, the PendingEntry
is not deleted, and the shipment id is not added to the dedup set — none
of the four actions the claim (and `run_flow2`'s own docstring) describe
happen. -/
theorem flow2_pending_present_generation_typeerror :
    run_flow2 { last_poll_date := none, processed_shipment_ids := [] }
        "2026-10-12" [sampleShipment] [("TEST00001", samplePending)] false =
      { savedState := some { last_poll_date := some "2026-10-12",
                             processed_shipment_ids := [] },
        processed := 0, skipped := 0, errors := 1, outFiles := [],
        pendingAfter := [("TEST00001", samplePending)] } := by
  decide

/-! ### Claim C4 — cap and eviction order of the dedup set -/

/-- A polled shipment whose order number passes `_is_our_order`. -/
def mkConfirmedShip (n : Nat) : SSShipment :=
  { shipmentId := n, orderNumber := "C_S" ++ Nat.repr n }

/-- 501 candidate shipments reconciled in this chronological order:
id 600 first (the oldest), then 500, 499, …, 1 (id 1 reconciled last). -/
def shipBatch : List SSShipment :=
  (600 :: (List.range 500).map (fun k => 500 - k)).map mkConfirmedShip

/-- When the Pending folder is empty every shipment takes the
"no pending JSON — mark as reconciled anyway" path, so the loop is exactly
repeated `set.add` of the shipment ids (and the folder stays empty). -/
lemma flow2_fold_ids_no_pending (ships : List SSShipment) :
    ∀ acc : Flow2Acc, acc.pendingStore = [] →
    (ships.foldl (flow2Step false none) acc).ids
      = ships.foldl (fun s x => pySetInsert x.shipmentId s) acc.ids := by
  induction ships with
  | nil => intro acc _; rfl
  | cons s ss ih =>
    intro acc hp
    have hstep : flow2Step false none acc s
        = { acc with skipped := acc.skipped + 1,
                     ids := pySetInsert s.shipmentId acc.ids } := by
      rw [flow2Step]
      rw [hp]
      rfl
    show (ss.foldl (flow2Step false none) (flow2Step false none acc s)).ids = _
    rw [hstep, ih _ (by exact hp)]
    rfl

set_option maxRecDepth 100000 in
/-- C4 (code bug): `run_flow2` persists `list(processed_ids)[-500:]`, but
`processed_ids` is a Python `set` of integer shipment ids, whose
enumeration is by value, not by insertion time.  Reconciling id 600 first
(the oldest) and ids 500 … 1 afterwards (id 1 last, the newest), with no
pending entries so every shipment takes the "mark as reconciled anyway"
path, the state persisted by the run holds 500 entries — the cap holds —
but the evicted entry is id 1, the **newest**, while the oldest id 600
survives, contradicting oldest-first eviction (and the code's own
comment). -/
theorem flow2_trim_not_oldest_first :
    (shipBatch.map (·.shipmentId)).head? = some 600
    ∧ (shipBatch.map (·.shipmentId)).getLast? = some 1
    ∧ (run_flow2 { last_poll_date := none, processed_shipment_ids := [] }
          "2026-10-12" shipBatch [] false).savedState
        = some { last_poll_date := some "2026-10-12",
                 processed_shipment_ids :=
                   trimIds (pySetOfList (shipBatch.map (·.shipmentId))) }
    ∧ (trimIds (pySetOfList (shipBatch.map (·.shipmentId)))).length = 500
    ∧ (trimIds (pySetOfList (shipBatch.map (·.shipmentId)))).contains 600 = true
    ∧ (trimIds (pySetOfList (shipBatch.map (·.shipmentId)))).contains 1 = false := by
  refine ⟨rfl, by decide, ?_, by decide, by decide, by decide⟩
  have hfilter : shipBatch.filter
      (fun s => isOurOrder s.orderNumber
        && !((pySetOfList ([] : List Nat)).contains s.shipmentId))
      = shipBatch :=
    List.filter_eq_self.mpr (by decide)
  have hids := flow2_fold_ids_no_pending shipBatch
    { pendingStore := [], ids := pySetOfList ([] : List Nat),
      processed := 0, skipped := 0, errors := 0, outFiles := [] } rfl
  have hmap : shipBatch.foldl (fun s x => pySetInsert x.shipmentId s)
        (pySetOfList ([] : List Nat))
      = pySetOfList (shipBatch.map (·.shipmentId)) := by
    show List.foldl (fun s x => pySetInsert x.shipmentId s) ([] : List Nat)
        shipBatch
      = List.foldl (fun s x => pySetInsert x s) ([] : List Nat)
        (shipBatch.map (·.shipmentId))
    rw [List.foldl_map]
  dsimp only [run_flow2]
  rw [hfilter, if_neg (by decide), hids, hmap]
  rfl

end QPSS
